import Mathlib

/-!
# Verification of the ubiqitum-kpi-api cache / normalisation engine

A shallow embedding of the cache-orchestration and numeric-normalisation
core of the `ubiqitum-kpi-api` repository (Netlify functions written in
TypeScript), together with proofs of the spec's testable properties.

Modelling conventions:

* JavaScript numbers are modelled as exact rationals (`ℚ`); `NaN` and the
  infinities are modelled by a dedicated non-finite marker.  All arithmetic
  the code performs (`Math.max`, `Math.min`, `Math.round`, `toFixed(2)`,
  division by `86400000`, …) is exact on the values involved, so the
  rational embedding reproduces the code's decisions; `Number.EPSILON` is
  kept as the exact rational `2⁻⁵²` to preserve the source's rounding
  expression verbatim.
* The two effectful collaborators of the cache handler — the Redis
  repository and the upstream KPI fetch — are passed in explicitly: the
  handler takes the value the store returned for the key and the outcome
  of the upstream call as arguments, and reports its own effects (whether
  it attempted the upstream call, and what it wrote to the store) in its
  result record.
* Strings are Lean `String`s; the JavaScript operations used by the source
  (`trim`, `toLowerCase`, `split`, `startsWith`, `slice`) are translated
  to their Lean counterparts (ASCII case folding, which covers every string
  the code and spec use).  `crypto.createHash('sha256')` is implemented
  bit-for-bit (FIPS 180-4) over the UTF-8 bytes of the input.
-/

namespace Ubiqitum

/-! ## JavaScript value model

The KPI payload fields can hold `undefined`, `null`, numbers or strings
(the wire format is JSON).  A JavaScript number is either a finite value
(modelled exactly as a rational) or non-finite (`NaN`, `±Infinity`). -/

/-- A JavaScript number: finite (exact rational) or non-finite (NaN/±∞). -/
inductive JsNum where
  | finite (q : ℚ)
  | nonFinite
deriving DecidableEq

/-- A JavaScript value as it can appear in a KPI payload field. -/
inductive JsValue where
  | undef
  | null
  | num (x : JsNum)
  | str (s : String)
deriving DecidableEq

/-- `Number.isFinite` on a JavaScript number. -/
def numberIsFinite : JsNum → Bool
  | .finite _ => true
  | .nonFinite => false

/-- `Number.isInteger(v)`: true exactly for finite numbers with no
fractional part. -/
def numberIsInteger : JsValue → Bool
  | .num (.finite q) => q.den = 1
  | _ => false

/-! ### `Number(string)` conversion

The ECMAScript `StringToNumber` conversion for the decimal grammar:
leading/trailing whitespace is ignored, the empty string is `0`, an
optional sign is followed by `Infinity` or a decimal literal
(`digits [. digits] [e [±] digits]` or `. digits [e [±] digits]`);
anything else is `NaN`.  (Hex/octal/binary literals are not modelled;
no claim involves them.) -/

/-- Parse an unsigned run of decimal digits, returning its value and the
number of digits consumed, alongside the remaining characters. -/
def parseDigits : List Char → ℕ → ℕ → (ℕ × ℕ × List Char)
  | c :: rest, acc, n =>
    if c.isDigit then parseDigits rest (acc * 10 + (c.toNat - 48)) (n + 1)
    else (acc, n, c :: rest)
  | [], acc, n => (acc, n, [])

/-- Parse the decimal-literal body (after the optional sign):
`digits [. digits] [exponent]` or `. digits [exponent]`. -/
def parseDecimalBody (cs : List Char) : Option ℚ :=
  let (intPart, intLen, rest1) := parseDigits cs 0 0
  let (fracPart, fracLen, rest2) :=
    match rest1 with
    | '.' :: rest => parseDigits rest 0 0
    | _ => (0, 0, rest1)
  if intLen = 0 ∧ fracLen = 0 then none
  else
    let mantissa : ℚ := (intPart : ℚ) + (fracPart : ℚ) / (10 : ℚ) ^ fracLen
    match rest2 with
    | [] => some mantissa
    | e :: rest3 =>
      if e = 'e' ∨ e = 'E' then
        let (expSign, rest4) :=
          match rest3 with
          | '+' :: r => ((1 : ℤ), r)
          | '-' :: r => ((-1 : ℤ), r)
          | r => ((1 : ℤ), r)
        let (expVal, expLen, rest5) := parseDigits rest4 0 0
        if expLen = 0 ∨ rest5 ≠ [] then none
        else some (mantissa * (10 : ℚ) ^ (expSign * expVal))
      else none

/-- `Number(s)` for a string `s`. -/
def jsStringToNumber (s : String) : JsNum :=
  let t := s.trim
  if t = "" then .finite 0
  else
    let (sign, body) : ℚ × List Char :=
      match t.toList with
      | '+' :: r => (1, r)
      | '-' :: r => (-1, r)
      | r => (1, r)
    if body = "Infinity".toList then .nonFinite
    else
      match parseDecimalBody body with
      | some q => .finite (sign * q)
      | none => .nonFinite

/-- `Number(v)` for an arbitrary JavaScript value. -/
def jsToNumber : JsValue → JsNum
  | .num x => x
  | .null => .finite 0
  | .undef => .nonFinite
  | .str s => jsStringToNumber s

/-! ## Numeric normaliser

Translated from `src/netlify/functions/ubiqitum-kpi.ts` (`normaliseScores`
with `clamp`, `round2`, `avoidBadDecimals`) and the identical helper
`normalise`/`avoid` in `src/unnamed/part_001` (the same pipeline, with an
extra re-round after the nudge; `src/unnamed/part_004` factors the same
steps inside its `avoid`).  All functions take the rounding seed
explicitly. -/

/-- `clamp = (x) => Math.max(0, Math.min(100, x))`. -/
def clamp (x : ℚ) : ℚ := max 0 (min 100 x)

/-- `Number.EPSILON` as an exact rational (2⁻⁵²). -/
def jsEpsilon : ℚ := 1 / 4503599627370496

/-- `Math.round`: round half towards +∞. -/
def jsRound (x : ℚ) : ℤ := ⌊x + 1 / 2⌋

/-- `round2 = (x) => Math.round((x + Number.EPSILON) * 100) / 100`. -/
def round2 (x : ℚ) : ℚ := (jsRound ((x + jsEpsilon) * 100) : ℚ) / 100

/-- `parseFloat(x.toFixed(2))` for the non-negative values the code feeds
it: round to the nearest multiple of `1/100`, ties towards +∞. -/
def toFixed2 (x : ℚ) : ℚ := (⌊x * 100 + 1 / 2⌋ : ℚ) / 100

/-- The test `s.endsWith("00") || s.endsWith("50")` on `s = x.toFixed(2)`,
for the exact two-decimal values the code applies it to: the final
two decimal digits of `x` are `00` or `50` iff `x` is an integer number of
cents divisible by 50. -/
def isBadTwoDec (x : ℚ) : Bool :=
  decide ((x * 100).den = 1 ∧ (x * 100).num % 50 = 0)

/-- The deterministic nudge: `seed % 2 === 0 ? 0.01 : -0.01`. -/
def seedNudge (seed : ℤ) : ℚ := if seed % 2 = 0 then 1 / 100 else -(1 / 100)

/-- `avoidBadDecimals` from `normaliseScores`
(`src/netlify/functions/ubiqitum-kpi.ts:113-120`): nudge and re-clamp when
the two-decimal representation ends in `00`/`50`, then
`parseFloat(x.toFixed(2))`. -/
def avoidBadDecimals (seed : ℤ) (x : ℚ) : ℚ :=
  toFixed2 (if isBadTwoDec x then clamp (x + seedNudge seed) else x)

/-- The per-field pipeline of `normaliseScores`:
`avoidBadDecimals(round2(clamp(v)))`. -/
def normaliseScore (seed : ℤ) (x : ℚ) : ℚ :=
  avoidBadDecimals seed (round2 (clamp x))

/-- `avoid` from `normalise` (`src/unnamed/part_001:172-184` and the second
handler draft in `src/netlify/functions/ubiqitum-kpi.ts:387-407`): like
`avoidBadDecimals` but with an extra `round2` after the clamped nudge. -/
def avoid (seed : ℤ) (x : ℚ) : ℚ :=
  toFixed2 (if isBadTwoDec x then round2 (clamp (x + seedNudge seed)) else x)

/-- The per-field pipeline `avoid(round2(clamp(v)))` of `normalise`
(`src/unnamed/part_001`, `src/unnamed/part_004` — the latter's `avoid`
inlines the same `round2(clamp(·))` prefix). -/
def normalise (seed : ℤ) (x : ℚ) : ℚ :=
  avoid seed (round2 (clamp x))

/-- Seed resolution in the KPI handlers
(`src/netlify/functions/ubiqitum-kpi.ts:241`, `src/unnamed/part_004:277`):
`Number.isInteger(body.seed) ? body.seed : 0`. -/
def resolveSeed : JsValue → ℤ
  | .num (.finite q) => if q.den = 1 then q.num else 0
  | _ => 0

/-- The cents produced by `round2 (clamp x)` (proof-side normal form). -/
def r2c (x : ℚ) : ℤ := jsRound ((clamp x + jsEpsilon) * 100)

/-- The final cents the normaliser emits, as a function of the rounded
cents `k = r2c x`: nudge by `±1` cent when `k` is divisible by 50, then
re-clamp into `[0, 10000]` (proof-side normal form). -/
def nfCents (seed k : ℤ) : ℤ :=
  if k % 50 = 0 then max 0 (min 10000 (k + if seed % 2 = 0 then 1 else -1))
  else k

/-! ## KPI payload validity and the cache handler

Translated from the final (third) handler draft in
`src/netlify/functions/ubiqitum-cache.ts:196-414`: `isValidKpiPayload`,
`normaliseKpiPayload` and the request flow of `handler` after body
parsing.  The payload is restricted to the four designated benchmark
fields, which are the only fields the cache module inspects. -/

/-- A KPI payload, restricted to the four designated benchmark numeric
fields. -/
structure KpiPayload where
  brand_relevance_percent : JsValue
  brand_awareness_percent : JsValue
  sector_relevance_avg_percent : JsValue
  sector_awareness_avg_percent : JsValue
deriving DecidableEq

/-- The `fields` array of `isValidKpiPayload` read off a payload. -/
def benchmarkFields (p : KpiPayload) : List JsValue :=
  [p.brand_relevance_percent, p.brand_awareness_percent,
   p.sector_relevance_avg_percent, p.sector_awareness_avg_percent]

/-- The per-field filter of `isValidKpiPayload`
(`src/netlify/functions/ubiqitum-cache.ts:259-264`):
`null`/`undefined`/`""` fail; otherwise the field (coerced with `Number`
when not already a number) must be finite. -/
def fieldCountsValid (v : JsValue) : Bool :=
  if v = .null ∨ v = .undef ∨ v = .str "" then false
  else numberIsFinite (match v with | .num x => x | _ => jsToNumber v)

/-- `validCount` in `isValidKpiPayload`. -/
def validCount (p : KpiPayload) : ℕ :=
  (benchmarkFields p).countP fieldCountsValid

/-- `isValidKpiPayload`: at least 3 of the 4 benchmark fields count as
valid (`src/netlify/functions/ubiqitum-cache.ts:249-267`). -/
def isValidKpiPayload (p : KpiPayload) : Bool :=
  3 ≤ validCount p

/-- The per-field coercion of `normaliseKpiPayload`
(`src/netlify/functions/ubiqitum-cache.ts:269-284`): fields that are
neither `undefined` nor `null` are replaced by `Number(field)`. -/
def normaliseField (v : JsValue) : JsValue :=
  if v = .undef ∨ v = .null then v else .num (jsToNumber v)

/-- `normaliseKpiPayload` applied to the four benchmark fields. -/
def normaliseKpiPayload (p : KpiPayload) : KpiPayload :=
  ⟨normaliseField p.brand_relevance_percent,
   normaliseField p.brand_awareness_percent,
   normaliseField p.sector_relevance_avg_percent,
   normaliseField p.sector_awareness_avg_percent⟩

/-- `meta` of a cache entry: `last_refreshed_at` (milliseconds since
epoch; `none` models an absent/falsy field, which the code replaces by the
current time) and `consistency_window_days` (`none` models an absent
field, replaced via `??` by the request's window). -/
structure CacheMeta where
  last_refreshed_at : Option ℚ
  consistency_window_days : Option ℚ
deriving DecidableEq

/-- A cache entry as stored under `ubiqitum:sk:<SK>`. -/
structure CacheEntry where
  payload : KpiPayload
  meta : CacheMeta
deriving DecidableEq

/-- Outcome of the upstream KPI invocation (`fetch` + `JSON.parse` +
validity check in the handler): the `fetch` itself may throw (timeout /
network), the body may fail to parse as JSON, or a payload is obtained. -/
inductive UpstreamResult where
  | fetchFailed
  | invalidJson
  | ok (p : KpiPayload)
deriving DecidableEq

/-- What one handler run produced: the HTTP status code, the final value
of the `cacheStatus` variable, the payload served in a 200 body (`none`
for error responses), whether the upstream KPI function was invoked, and
the `redis.set` effect (payload written and TTL seconds), if any. -/
structure HandlerResult where
  statusCode : ℕ
  cacheStatus : String
  served : Option KpiPayload
  fetchAttempted : Bool
  cacheWrite : Option (KpiPayload × ℚ)
deriving DecidableEq

/-- The KPI-invocation tail of the handler
(`src/netlify/functions/ubiqitum-cache.ts:369-413`): a `fetch` rejection
or unparseable body propagates to the `catch` block (HTTP 500); an
invalid payload is rejected with HTTP 502 and not cached; a valid payload
is normalised, cached with TTL `windowDays * 86400`, and served. -/
def fetchPhase (cacheStatus : String) (windowDays : ℚ)
    (upstream : UpstreamResult) : HandlerResult :=
  match upstream with
  | .fetchFailed => ⟨500, cacheStatus, none, true, none⟩
  | .invalidJson => ⟨500, cacheStatus, none, true, none⟩
  | .ok p =>
    if isValidKpiPayload p = false then ⟨502, cacheStatus, none, true, none⟩
    else
      ⟨200, cacheStatus, some (normaliseKpiPayload p), true,
        some (normaliseKpiPayload p, windowDays * 86400)⟩

/-- The cache-evaluation flow of the final handler
(`src/netlify/functions/ubiqitum-cache.ts:330-367`): in pinned mode with a
cached entry, compute the age in days, classify; a within-window invalid
payload is served immediately as `degraded`, a within-window valid payload
as `hit`; otherwise (stale, not pinned, or no entry) the upstream KPI
function is invoked.  The source's locals (`ageDays`, `withinWindow`,
`payloadValid`) are inlined into the branch conditions. -/
def handler (cached : Option CacheEntry) (mode : String) (windowDays : ℚ)
    (nowMs : ℚ) (upstream : UpstreamResult) : HandlerResult :=
  match cached with
  | some entry =>
    if mode = "pinned" then
      if (nowMs - entry.meta.last_refreshed_at.getD nowMs) / 86400000 ≤
            entry.meta.consistency_window_days.getD windowDays ∧
          isValidKpiPayload entry.payload = false then
        ⟨200, "degraded", some entry.payload, false, none⟩
      else if (nowMs - entry.meta.last_refreshed_at.getD nowMs) / 86400000 ≤
            entry.meta.consistency_window_days.getD windowDays ∧
          isValidKpiPayload entry.payload = true then
        ⟨200, "hit", some entry.payload, false, none⟩
      else
        fetchPhase "stale" windowDays upstream
    else fetchPhase "miss" windowDays upstream
  | none => fetchPhase "miss" windowDays upstream

/-! ### Spec-side notions for the validity claim

These two definitions follow the wording of the spec (§4.4), to be
compared with the code's `isValidKpiPayload`. -/

/-- A payload field of the documented `number | null` shape (the
`KpiPayload` data model of spec §3). -/
def numberOrNull : JsValue → Bool
  | .num _ => true
  | .null => true
  | .undef => true
  | .str _ => false

/-- Spec §4.4 wording: the field is "present and finite (not null, not
NaN)". -/
def specPresentFinite : JsValue → Bool
  | .num (.finite _) => true
  | _ => false

/-- The number of benchmark fields that are present and finite in the
spec's sense. -/
def specValidCount (p : KpiPayload) : ℕ :=
  (benchmarkFields p).countP specPresentFinite

/-! ## Canonicaliser and Stability-Key Builder

Translated from `src/netlify/functions/ubiqitum-kpi-core.ts:48-82` (the
same `canonicalDomain`/`buildSK` pair appears verbatim in every cache
draft).  `sha256` is Node's `crypto.createHash('sha256')`, implemented
here directly (FIPS 180-4) over the UTF-8 bytes of the input. -/

/-- The whitespace characters `String.prototype.trim` removes (restricted
to those that occur in practice). -/
def isJsSpace (c : Char) : Bool :=
  c = ' ' || c = '\t' || c = '\n' || c = '\r' || c = '\x0b' || c = '\x0c'

/-- `u.trim()` (string operations are carried out on the character list so
that they are fully computable). -/
def jsTrim (s : String) : String :=
  String.mk (((s.toList.dropWhile isJsSpace).reverse.dropWhile isJsSpace).reverse)

/-- `u.toLowerCase()` (ASCII case folding). -/
def jsToLower (s : String) : String := String.mk (s.toList.map Char.toLower)

/-- `s.startsWith(pre)`. -/
def strStartsWith (s pre : String) : Bool := pre.toList.isPrefixOf s.toList

/-- `s.slice(n)`. -/
def strDrop (s : String) (n : ℕ) : String := String.mk (s.toList.drop n)

/-- `u.replace(/^https?:\/\//, '')` on an already-lower-cased string. -/
def stripScheme (s : String) : String :=
  if strStartsWith s "https://" then strDrop s 8
  else if strStartsWith s "http://" then strDrop s 7
  else s

/-- `u.split(/[\/?#]/, 1)[0]`: the prefix before the first `/`, `?` or
`#`. -/
def hostToken (s : String) : String :=
  String.mk (s.toList.takeWhile (fun c => c != '/' && c != '?' && c != '#'))

/-- `canonicalDomain`: trim, lower-case, strip an `http(s)://` scheme,
keep the host part, strip a leading `www.`. -/
def canonicalDomain (u : String) : String :=
  let h := hostToken (stripScheme (jsToLower (jsTrim u)))
  if strStartsWith h "www." then strDrop h 4 else h

/-- JavaScript `||`-defaulting for optional string fields: an absent field
or an empty string falls back to the default. -/
def jsOr (v : Option String) (d : String) : String :=
  match v with
  | none => d
  | some s => if s = "" then d else s

/-- The identity fields `buildSK` consumes. -/
structure SKArgs where
  brand_url : String
  brand_name : Option String
  market : Option String
  sector : Option String
  segment : Option String
  timeframe : Option String
  industry_definition : Option String
  seed : Option ℤ
deriving DecidableEq

/-- The ordered `parts` list of `buildSK`
(`src/netlify/functions/ubiqitum-kpi-core.ts:70-80`). -/
def skParts (a : SKArgs) : List String :=
  [canonicalDomain a.brand_url,
   jsToLower (jsOr a.brand_name ""),
   jsToLower (jsOr a.market "Global"),
   jsToLower (jsOr a.sector ""),
   jsToLower (jsOr a.segment "B2C"),
   jsToLower (jsOr a.timeframe "Current"),
   jsToLower (jsOr a.industry_definition ""),
   (match a.seed with | none => "" | some z => toString z),
   "V3.5.14"]

/-! ### SHA-256 (FIPS 180-4) over natural numbers mod 2³² -/

/-- Reduce to a 32-bit word. -/
def w32 (n : ℕ) : ℕ := n % 4294967296

/-- Rotate a 32-bit word right by `k`. -/
def rotr32 (x k : ℕ) : ℕ := w32 (x / 2 ^ k + x % 2 ^ k * 2 ^ (32 - k))

/-- Shift a 32-bit word right by `k`. -/
def shr32 (x k : ℕ) : ℕ := x / 2 ^ k

/-- Three-way xor. -/
def xor3 (a b c : ℕ) : ℕ := Nat.xor (Nat.xor a b) c

/-- The 64 SHA-256 round constants (FIPS 180-4 §4.2.2), in decimal. -/
def sha256K : List ℕ :=
  [1116352408, 1899447441, 3049323471, 3921009573, 961987163,
   1508970993, 2453635748, 2870763221, 3624381080, 310598401,
   607225278, 1426881987, 1925078388, 2162078206, 2614888103,
   3248222580, 3835390401, 4022224774, 264347078, 604807628,
   770255983, 1249150122, 1555081692, 1996064986, 2554220882,
   2821834349, 2952996808, 3210313671, 3336571891, 3584528711,
   113926993, 338241895, 666307205, 773529912, 1294757372,
   1396182291, 1695183700, 1986661051, 2177026350, 2456956037,
   2730485921, 2820302411, 3259730800, 3345764771, 3516065817,
   3600352804, 4094571909, 275423344, 430227734, 506948616,
   659060556, 883997877, 958139571, 1322822218, 1537002063,
   1747873779, 1955562222, 2024104815, 2227730452, 2361852424,
   2428436474, 2756734187, 3204031479, 3329325298]

/-- The eight SHA-256 initial hash values (FIPS 180-4 §5.3.3), in
decimal. -/
def sha256H0 : List ℕ :=
  [1779033703, 3144134277, 1013904242, 2773480762,
   1359893119, 2600822924, 528734635, 1541459225]

def bigSigma0 (x : ℕ) : ℕ := xor3 (rotr32 x 2) (rotr32 x 13) (rotr32 x 22)
def bigSigma1 (x : ℕ) : ℕ := xor3 (rotr32 x 6) (rotr32 x 11) (rotr32 x 25)
def smallSigma0 (x : ℕ) : ℕ := xor3 (rotr32 x 7) (rotr32 x 18) (shr32 x 3)
def smallSigma1 (x : ℕ) : ℕ := xor3 (rotr32 x 17) (rotr32 x 19) (shr32 x 10)

/-- `Ch(x, y, z) = (x ∧ y) ⊕ (¬x ∧ z)` on 32-bit words. -/
def chFn (x y z : ℕ) : ℕ :=
  Nat.xor (Nat.land x y) (Nat.land (Nat.xor x 4294967295) z)

/-- `Maj(x, y, z) = (x ∧ y) ⊕ (x ∧ z) ⊕ (y ∧ z)`. -/
def majFn (x y z : ℕ) : ℕ :=
  xor3 (Nat.land x y) (Nat.land x z) (Nat.land y z)

/-- Big-endian 32-bit words from a list of bytes. -/
def toWords32 : List ℕ → List ℕ
  | b0 :: b1 :: b2 :: b3 :: rest =>
    (((b0 * 256 + b1) * 256 + b2) * 256 + b3) :: toWords32 rest
  | _ => []

/-- The big-endian 8-byte encoding of a length in bits. -/
def beBytes8 (n : ℕ) : List ℕ :=
  [n / 2 ^ 56 % 256, n / 2 ^ 48 % 256, n / 2 ^ 40 % 256, n / 2 ^ 32 % 256,
   n / 2 ^ 24 % 256, n / 2 ^ 16 % 256, n / 2 ^ 8 % 256, n % 256]

/-- SHA-256 message padding: `0x80`, zeros, 64-bit big-endian bit
length. -/
def sha256Pad (msg : List ℕ) : List ℕ :=
  msg ++ [128] ++ List.replicate ((64 - (msg.length + 9) % 64) % 64) 0 ++
    beBytes8 (8 * msg.length)

/-- Split a byte list into 64-byte blocks. -/
def chunks64 : List ℕ → List (List ℕ)
  | [] => []
  | b :: rest => ((b :: rest).take 64) :: chunks64 ((b :: rest).drop 64)
termination_by l => l.length
decreasing_by simp [List.length_drop]; omega

/-- Extend the 16-word schedule by `k` further words. -/
def sha256Extend (w : List ℕ) : ℕ → List ℕ
  | 0 => w
  | k + 1 =>
    sha256Extend
      (w ++ [w32 (smallSigma1 (w.getD (w.length - 2) 0) +
        w.getD (w.length - 7) 0 +
        smallSigma0 (w.getD (w.length - 15) 0) +
        w.getD (w.length - 16) 0)]) k

/-- One compression round on the 8-word state. -/
def sha256Round (st : List ℕ) (wk : ℕ × ℕ) : List ℕ :=
  match st with
  | [a, b, c, d, e, f, g, h] =>
    let t1 := w32 (h + bigSigma1 e + chFn e f g + wk.2 + wk.1)
    let t2 := w32 (bigSigma0 a + majFn a b c)
    [w32 (t1 + t2), a, b, c, w32 (d + t1), e, f, g]
  | other => other

/-- Process one 64-byte block. -/
def sha256Block (h : List ℕ) (block : List ℕ) : List ℕ :=
  let ws := sha256Extend (toWords32 block) 48
  let st := (ws.zip sha256K).foldl sha256Round h
  List.zipWith (fun x y => w32 (x + y)) h st

/-- UTF-8 encoding of one code point. -/
def utf8EncodeChar (c : Char) : List ℕ :=
  let n := c.toNat
  if n < 128 then [n]
  else if n < 2048 then [192 + n / 64, 128 + n % 64]
  else if n < 65536 then
    [224 + n / 4096, 128 + n / 64 % 64, 128 + n % 64]
  else
    [240 + n / 262144, 128 + n / 4096 % 64, 128 + n / 64 % 64, 128 + n % 64]

/-- A lower-case hex digit. -/
def hexDigit (n : ℕ) : Char :=
  if n < 10 then Char.ofNat (48 + n) else Char.ofNat (87 + n)

/-- Lower-case hex of a 32-bit word. -/
def hex8 (n : ℕ) : List Char :=
  [hexDigit (n / 2 ^ 28 % 16), hexDigit (n / 2 ^ 24 % 16),
   hexDigit (n / 2 ^ 20 % 16), hexDigit (n / 2 ^ 16 % 16),
   hexDigit (n / 2 ^ 12 % 16), hexDigit (n / 2 ^ 8 % 16),
   hexDigit (n / 2 ^ 4 % 16), hexDigit (n % 16)]

/-- `crypto.createHash('sha256').update(s, 'utf8').digest('hex')`. -/
def sha256 (s : String) : String :=
  let msg := (s.toList.map utf8EncodeChar).flatten
  let hs := (chunks64 (sha256Pad msg)).foldl sha256Block sha256H0
  String.mk (hs.map hex8).flatten

/-- `buildSK`: pipe-join the parts and hash
(`src/netlify/functions/ubiqitum-kpi-core.ts:59-82`). -/
def buildSK (a : SKArgs) : String :=
  sha256 (String.intercalate "|" (skParts a))

/-! # Theorems -/

/-! ## Arithmetic facts about the normaliser pipeline

The pipeline only ever manipulates integer numbers of cents: `round2`
produces `k/100` with `k ∈ [0, 10000]`, the nudge moves `k` by `±1`, and
the re-clamp keeps it in range.  The lemmas below make that normal form
explicit. -/

theorem round2_clamp (x : ℚ) : round2 (clamp x) = (r2c x : ℚ) / 100 := rfl

theorem clamp_nonneg (x : ℚ) : 0 ≤ clamp x := le_max_left 0 _

theorem clamp_le_hundred (x : ℚ) : clamp x ≤ 100 :=
  max_le (by norm_num) (min_le_left _ _)

theorem floor_eps_half : ⌊(100 * jsEpsilon + 1 / 2 : ℚ)⌋ = 0 := by
  norm_num [jsEpsilon]

theorem r2c_nonneg (x : ℚ) : 0 ≤ r2c x := by
  have h := clamp_nonneg x
  have h2 : ((0 : ℤ) : ℚ) ≤ (clamp x + jsEpsilon) * 100 + 1 / 2 := by
    push_cast
    norm_num [jsEpsilon]
    linarith
  exact Int.le_floor.mpr h2

theorem r2c_le (x : ℚ) : r2c x ≤ 10000 := by
  have h := clamp_le_hundred x
  have h2 : (clamp x + jsEpsilon) * 100 + 1 / 2 < ((10001 : ℤ) : ℚ) := by
    push_cast
    norm_num [jsEpsilon]
    linarith
  have h3 : r2c x < 10001 := Int.floor_lt.mpr h2
  omega

theorem round2_cents (m : ℤ) : round2 ((m : ℚ) / 100) = (m : ℚ) / 100 := by
  unfold round2 jsRound
  have h : ((m : ℚ) / 100 + jsEpsilon) * 100 + 1 / 2
      = (m : ℚ) + (100 * jsEpsilon + 1 / 2) := by ring
  rw [h, Int.floor_int_add, floor_eps_half, add_zero]

theorem toFixed2_cents (m : ℤ) : toFixed2 ((m : ℚ) / 100) = (m : ℚ) / 100 := by
  unfold toFixed2
  have h : (m : ℚ) / 100 * 100 + 1 / 2 = (m : ℚ) + (1 / 2 : ℚ) := by ring
  have h0 : ⌊(1 / 2 : ℚ)⌋ = 0 := by norm_num
  rw [h, Int.floor_int_add, h0, add_zero]

theorem isBadTwoDec_cents (m : ℤ) :
    isBadTwoDec ((m : ℚ) / 100) = decide (m % 50 = 0) := by
  unfold isBadTwoDec
  have h : (m : ℚ) / 100 * 100 = (m : ℚ) := by
    field_simp
  rw [h]
  simp

theorem clamp_cents (m : ℤ) :
    clamp ((m : ℚ) / 100) = ((max 0 (min 10000 m) : ℤ) : ℚ) / 100 := by
  have hc : (0 : ℚ) ≤ 100 := by norm_num
  unfold clamp
  push_cast
  rw [← max_div_div_right hc, ← min_div_div_right hc]
  norm_num

theorem r2c_cents (m : ℤ) (h0 : 0 ≤ m) (h1 : m ≤ 10000) :
    r2c ((m : ℚ) / 100) = m := by
  have hmax : max 0 (min 10000 m) = m := by omega
  unfold r2c jsRound
  rw [clamp_cents, hmax]
  have h : ((m : ℚ) / 100 + jsEpsilon) * 100 + 1 / 2
      = (m : ℚ) + (100 * jsEpsilon + 1 / 2) := by ring
  rw [h, Int.floor_int_add, floor_eps_half, add_zero]

theorem normaliseScore_cents (seed : ℤ) (x : ℚ) :
    normaliseScore seed x = (nfCents seed (r2c x) : ℚ) / 100 := by
  unfold normaliseScore avoidBadDecimals
  rw [round2_clamp, isBadTwoDec_cents]
  unfold nfCents seedNudge
  by_cases h50 : r2c x % 50 = 0
  · simp only [h50, decide_True, if_true]
    by_cases hp : seed % 2 = 0
    · simp only [hp, if_true]
      have h : (r2c x : ℚ) / 100 + 1 / 100 = ((r2c x + 1 : ℤ) : ℚ) / 100 := by
        push_cast; ring
      rw [h, clamp_cents, toFixed2_cents]
    · simp only [hp, if_false]
      have h : (r2c x : ℚ) / 100 + -(1 / 100) = ((r2c x + -1 : ℤ) : ℚ) / 100 := by
        push_cast; ring
      rw [h, clamp_cents, toFixed2_cents]
  · simp only [h50, decide_False, if_false]
    exact toFixed2_cents _

theorem normalise_cents (seed : ℤ) (x : ℚ) :
    normalise seed x = (nfCents seed (r2c x) : ℚ) / 100 := by
  unfold normalise avoid
  rw [round2_clamp, isBadTwoDec_cents]
  unfold nfCents seedNudge
  by_cases h50 : r2c x % 50 = 0
  · simp only [h50, decide_True, if_true]
    by_cases hp : seed % 2 = 0
    · simp only [hp, if_true]
      have h : (r2c x : ℚ) / 100 + 1 / 100 = ((r2c x + 1 : ℤ) : ℚ) / 100 := by
        push_cast; ring
      rw [h, clamp_cents, round2_cents, toFixed2_cents]
    · simp only [hp, if_false]
      have h : (r2c x : ℚ) / 100 + -(1 / 100) = ((r2c x + -1 : ℤ) : ℚ) / 100 := by
        push_cast; ring
      rw [h, clamp_cents, round2_cents, toFixed2_cents]
  · simp only [h50, decide_False, if_false]
    exact toFixed2_cents _

theorem nfCents_nonneg (seed k : ℤ) (h0 : 0 ≤ k) : 0 ≤ nfCents seed k := by
  unfold nfCents
  split_ifs <;> omega

theorem nfCents_le (seed k : ℤ) (h1 : k ≤ 10000) : nfCents seed k ≤ 10000 := by
  unfold nfCents
  split_ifs <;> omega

theorem nfCents_idem (seed k : ℤ) (h0 : 0 ≤ k) (h1 : k ≤ 10000) :
    nfCents seed (nfCents seed k) = nfCents seed k := by
  unfold nfCents
  split_ifs <;> omega

theorem nfCents_mod (seed k : ℤ) (h0 : 0 ≤ k) (h1 : k ≤ 10000) :
    ¬ nfCents seed k % 50 = 0 ∨
    (nfCents seed k = 0 ∧ ¬ seed % 2 = 0) ∨
    (nfCents seed k = 10000 ∧ seed % 2 = 0) := by
  unfold nfCents
  split_ifs <;> omega

/-! ## Claims about the numeric normaliser (C1, C4, C8, C10) -/

/-- C1 (counterexample): the claim "the two-decimal string never ends in
`00` or `50`" fails at the clamp boundary: `normaliseScores`' pipeline at
raw value 100 with even seed 0 returns 100, whose two-decimal
representation `100.00` ends in `00` (the `+0.01` nudge is clamped back to
100). -/
theorem c1_counterexample :
    normaliseScore 0 100 = 100 ∧ isBadTwoDec (normaliseScore 0 100) = true := by
  have h : normaliseScore 0 100 = 100 := by
    norm_num [normaliseScore, avoidBadDecimals, round2, clamp, jsRound, jsEpsilon,
      toFixed2, isBadTwoDec, seedNudge]
  refine ⟨h, ?_⟩
  rw [h, show (100 : ℚ) = ((10000 : ℤ) : ℚ) / 100 by norm_num, isBadTwoDec_cents]
  norm_num

/-- C1 (amended): for every number `x` and integer seed, the normaliser
returns a value in `[0, 100]` that is an exact multiple of `1/100`
(exactly two decimal digits), and its two-decimal representation never
ends in `00` or `50` — except in the two boundary cases where the nudge is
clamped away: result exactly 0 with an odd seed, or exactly 100 with an
even seed. -/
theorem c1_normaliser_range_decimals (seed : ℤ) (x : ℚ) :
    0 ≤ normaliseScore seed x ∧ normaliseScore seed x ≤ 100 ∧
    (normaliseScore seed x * 100).den = 1 ∧
    (isBadTwoDec (normaliseScore seed x) = false ∨
      (normaliseScore seed x = 0 ∧ ¬ seed % 2 = 0) ∨
      (normaliseScore seed x = 100 ∧ seed % 2 = 0)) := by
  have hk0 := r2c_nonneg x
  have hk1 := r2c_le x
  have hn0 := nfCents_nonneg seed (r2c x) hk0
  have hn1 := nfCents_le seed (r2c x) hk1
  rw [normaliseScore_cents]
  refine ⟨?_, ?_, ?_, ?_⟩
  · exact div_nonneg (by exact_mod_cast hn0) (by norm_num)
  · rw [div_le_iff₀ (by norm_num : (0 : ℚ) < 100)]
    have h : ((nfCents seed (r2c x) : ℤ) : ℚ) ≤ 10000 := by exact_mod_cast hn1
    linarith
  · rw [div_mul_cancel₀ _ (by norm_num : (100 : ℚ) ≠ 0)]
    simp
  · rcases nfCents_mod seed (r2c x) hk0 hk1 with h | ⟨h, hp⟩ | ⟨h, hp⟩
    · left
      rw [isBadTwoDec_cents]
      simpa using h
    · right; left
      exact ⟨by rw [h]; norm_num, hp⟩
    · right; right
      exact ⟨by rw [h]; norm_num, hp⟩

/-- Witness for C1's amended theorem at seed 1, raw value 0 (a boundary
case: the result 0 still ends in `00`). -/
theorem c1_witness :
    0 ≤ normaliseScore 1 0 ∧ normaliseScore 1 0 ≤ 100 ∧
    (normaliseScore 1 0 * 100).den = 1 ∧
    (isBadTwoDec (normaliseScore 1 0) = false ∨
      (normaliseScore 1 0 = 0 ∧ ¬ (1 : ℤ) % 2 = 0) ∨
      (normaliseScore 1 0 = 100 ∧ (1 : ℤ) % 2 = 0)) :=
  c1_normaliser_range_decimals 1 0

/-- C4 (counterexample): the claim "a raw value rounding to `0.00` with an
odd seed normalises to `0.01`" is false: the `-0.01` nudge is clamped back
to 0, so the result is `0.00`, not `0.01`. -/
theorem c4_counterexample :
    normaliseScore 1 0 = 0 ∧ ¬ normaliseScore 1 0 = 1 / 100 := by
  have h : normaliseScore 1 0 = 0 := by
    norm_num [normaliseScore, avoidBadDecimals, round2, clamp, jsRound, jsEpsilon,
      toFixed2, isBadTwoDec, seedNudge]
  exact ⟨h, by rw [h]; norm_num⟩

/-- C4 (amended): a raw value that rounds to exactly `50.00` normalises to
`50.01` under an even seed and to `49.99` under an odd seed; a raw value
that rounds to exactly `0.00` with an odd seed normalises to `0.00` (the
`-0.01` nudge is re-clamped to 0, not to `0.01`). -/
theorem c4_boundary (seed : ℤ) (x : ℚ) :
    (round2 (clamp x) = 50 →
      (seed % 2 = 0 → normaliseScore seed x = 5001 / 100) ∧
      (¬ seed % 2 = 0 → normaliseScore seed x = 4999 / 100)) ∧
    (round2 (clamp x) = 0 → ¬ seed % 2 = 0 → normaliseScore seed x = 0) := by
  constructor
  · intro h50
    have hk : r2c x = 5000 := by
      have h : (r2c x : ℚ) / 100 = 50 := by rw [← round2_clamp, h50]
      field_simp at h
      exact_mod_cast h
    constructor
    · intro hp
      rw [normaliseScore_cents, hk]
      have h : nfCents seed 5000 = 5001 := by
        unfold nfCents; split_ifs <;> omega
      rw [h]; norm_num
    · intro hp
      rw [normaliseScore_cents, hk]
      have h : nfCents seed 5000 = 4999 := by
        unfold nfCents; split_ifs <;> omega
      rw [h]; norm_num
  · intro h0 hp
    have hk : r2c x = 0 := by
      have h : (r2c x : ℚ) / 100 = 0 := by rw [← round2_clamp, h0]
      field_simp at h
      exact_mod_cast h
    rw [normaliseScore_cents, hk]
    have h : nfCents seed 0 = 0 := by
      unfold nfCents; split_ifs <;> omega
    rw [h]; norm_num

/-- Witness for C4's amended theorem: raw value 50, even seed 0, result
`50.01`. -/
theorem c4_witness :
    round2 (clamp 50) = 50 ∧ normaliseScore 0 50 = 5001 / 100 := by
  have h : round2 (clamp 50) = 50 := by
    norm_num [round2, clamp, jsRound, jsEpsilon]
  exact ⟨h, ((c4_boundary 0 50).1 h).1 (by norm_num)⟩

/-- C8 (confirmed): the numeric normaliser is idempotent — normalising an
already-normalised value changes nothing, for every value and seed
(including the clamped boundary cases). -/
theorem c8_normalise_idempotent (seed : ℤ) (x : ℚ) :
    normalise seed (normalise seed x) = normalise seed x := by
  have hk0 := r2c_nonneg x
  have hk1 := r2c_le x
  have hn0 := nfCents_nonneg seed (r2c x) hk0
  have hn1 := nfCents_le seed (r2c x) hk1
  rw [normalise_cents seed x]
  rw [normalise_cents]
  rw [r2c_cents _ hn0 hn1]
  rw [nfCents_idem seed (r2c x) hk0 hk1]

/-- Witness for C8 at seed 1, raw value 12.5 (which is nudged to 12.49 on
the first pass and then left alone). -/
theorem c8_witness :
    normalise 1 (normalise 1 (25 / 2)) = normalise 1 (25 / 2) :=
  c8_normalise_idempotent 1 (25 / 2)

/-- C10 (confirmed): when `body.seed` is absent (`undefined`), `null`, a
fractional number, or a numeric string, `Number.isInteger(body.seed)` is
false and the handler resolves the seed to 0, so normalisation runs with
seed 0 and the `.00`/`.50`-avoidance nudge is `+0.01` (the even-seed
direction). -/
theorem c10_seed_default (v : JsValue) :
    (numberIsInteger v = false →
      resolveSeed v = 0 ∧
      ∀ x : ℚ, normaliseScore (resolveSeed v) x = normaliseScore 0 x) ∧
    seedNudge 0 = 1 / 100 ∧
    resolveSeed .undef = 0 ∧ resolveSeed .null = 0 ∧
    resolveSeed (.num (.finite (5 / 2))) = 0 ∧ resolveSeed (.str "7") = 0 := by
  refine ⟨?_, by norm_num [seedNudge], rfl, rfl, by norm_num [resolveSeed], rfl⟩
  intro h
  have h0 : resolveSeed v = 0 := by
    cases v with
    | num x =>
      cases x with
      | finite q =>
        simp only [numberIsInteger, decide_eq_false_iff_not] at h
        simp [resolveSeed, h]
      | nonFinite => rfl
    | undef => rfl
    | null => rfl
    | str s => rfl
  exact ⟨h0, fun x => by rw [h0]⟩

/-- Witness for C10 at `body.seed = null`. -/
theorem c10_witness :
    numberIsInteger .null = false ∧ resolveSeed .null = 0 :=
  ⟨rfl, ((c10_seed_default .null).1 rfl).1⟩

/-! ## Cache-handler lemmas -/

/-- In pinned mode with a cached entry, the handler is the explicit
three-way classification. -/
theorem handler_pinned_some (e : CacheEntry) (w nowMs : ℚ) (u : UpstreamResult) :
    handler (some e) "pinned" w nowMs u =
      (if (nowMs - e.meta.last_refreshed_at.getD nowMs) / 86400000 ≤
            e.meta.consistency_window_days.getD w ∧
          isValidKpiPayload e.payload = false then
        ⟨200, "degraded", some e.payload, false, none⟩
       else if (nowMs - e.meta.last_refreshed_at.getD nowMs) / 86400000 ≤
            e.meta.consistency_window_days.getD w ∧
          isValidKpiPayload e.payload = true then
        ⟨200, "hit", some e.payload, false, none⟩
       else fetchPhase "stale" w u) := by
  simp [handler]

/-- Without a cached entry the handler always invokes the upstream
function with classification `miss`. -/
theorem handler_none (mode : String) (w nowMs : ℚ) (u : UpstreamResult) :
    handler none mode w nowMs u = fetchPhase "miss" w u := rfl

/-- The upstream-invocation tail never serves a payload on failure, always
reports the fetch, and writes exactly on a valid payload. -/
theorem fetchPhase_write (s : String) (w : ℚ) (u : UpstreamResult) :
    ((u = .fetchFailed ∨ u = .invalidJson) →
      fetchPhase s w u = ⟨500, s, none, true, none⟩) ∧
    (∀ p, u = .ok p → isValidKpiPayload p = false →
      fetchPhase s w u = ⟨502, s, none, true, none⟩) ∧
    (∀ pr, (fetchPhase s w u).cacheWrite = some pr →
      ∃ p, u = .ok p ∧ isValidKpiPayload p = true ∧
        pr = (normaliseKpiPayload p, w * 86400)) ∧
    (fetchPhase s w u).fetchAttempted = true ∧
    (fetchPhase s w u).cacheStatus = s := by
  refine ⟨?_, ?_, ?_, ?_, ?_⟩
  · rintro (rfl | rfl) <;> rfl
  · rintro p rfl hv
    simp [fetchPhase, hv]
  · intro pr hpr
    cases u with
    | fetchFailed => simp [fetchPhase] at hpr
    | invalidJson => simp [fetchPhase] at hpr
    | ok p =>
      by_cases hv : isValidKpiPayload p = false
      · simp [fetchPhase, hv] at hpr
      · refine ⟨p, rfl, by simpa using hv, ?_⟩
        simp [fetchPhase, hv] at hpr
        exact hpr.symm
  · cases u with
    | fetchFailed => rfl
    | invalidJson => rfl
    | ok p => by_cases hv : isValidKpiPayload p = false <;> simp [fetchPhase, hv]
  · cases u with
    | fetchFailed => rfl
    | invalidJson => rfl
    | ok p => by_cases hv : isValidKpiPayload p = false <;> simp [fetchPhase, hv]

/-- With a cached entry in pinned mode whose age exceeds the window, the
handler falls through to the upstream invocation with classification
`stale`. -/
theorem handler_stale (e : CacheEntry) (w nowMs lastMs : ℚ) (u : UpstreamResult)
    (hl : e.meta.last_refreshed_at = some lastMs)
    (hstale : ¬ (nowMs - lastMs) / 86400000 ≤ e.meta.consistency_window_days.getD w) :
    handler (some e) "pinned" w nowMs u = fetchPhase "stale" w u := by
  rw [handler_pinned_some, hl]
  simp only [Option.getD_some]
  rw [if_neg (fun h => hstale h.1), if_neg (fun h => hstale h.1)]

/-! ## Claims about the freshness state machine and cache writes
(C3, C5, C6, C7, C9) -/

/-- C5 (confirmed): over payloads whose benchmark fields have the
documented `number | null` shape, `isValidKpiPayload` accepts exactly the
payloads with at least 3 of the 4 designated fields present and finite
(not null, not NaN); a payload with exactly 2 of 4 present is invalid and
one with exactly 3 of 4 present is valid. -/
theorem c5_validity_threshold (p : KpiPayload) :
    ((∀ v ∈ benchmarkFields p, numberOrNull v = true) →
      (isValidKpiPayload p = true ↔ 3 ≤ specValidCount p)) ∧
    isValidKpiPayload ⟨.num (.finite 10), .num (.finite 20), .null, .null⟩ = false ∧
    isValidKpiPayload ⟨.num (.finite 10), .num (.finite 20), .num (.finite 30), .null⟩ = true := by
  refine ⟨?_, by decide, by decide⟩
  intro hnn
  have hc : validCount p = specValidCount p := by
    unfold validCount specValidCount
    refine List.countP_congr ?_
    intro v hv
    have h := hnn v hv
    cases v with
    | num x =>
      cases x <;> simp [fieldCountsValid, specPresentFinite, numberIsFinite]
    | null => simp [fieldCountsValid, specPresentFinite]
    | undef => simp [fieldCountsValid, specPresentFinite]
    | str s => simp [numberOrNull] at h
  unfold isValidKpiPayload
  rw [hc]
  simp

/-- Witness for C5 at the 3-of-4 payload. -/
theorem c5_witness :
    isValidKpiPayload ⟨.num (.finite 10), .num (.finite 20), .num (.finite 30), .null⟩ = true ↔
      3 ≤ specValidCount ⟨.num (.finite 10), .num (.finite 20), .num (.finite 30), .null⟩ :=
  (c5_validity_threshold _).1 (by decide)

/-- C9 (confirmed): the pinned-mode freshness window is boundary
inclusive — an entry whose age in days equals the window exactly is served
as `HIT` with no upstream call, while an entry strictly older is
classified `stale` and triggers the upstream invocation. -/
theorem c9_window_boundary (e : CacheEntry) (w nowMs lastMs : ℚ) (u : UpstreamResult)
    (hl : e.meta.last_refreshed_at = some lastMs) :
    ((nowMs - lastMs) / 86400000 = e.meta.consistency_window_days.getD w →
      isValidKpiPayload e.payload = true →
      handler (some e) "pinned" w nowMs u = ⟨200, "hit", some e.payload, false, none⟩) ∧
    (e.meta.consistency_window_days.getD w < (nowMs - lastMs) / 86400000 →
      (handler (some e) "pinned" w nowMs u).fetchAttempted = true ∧
      (handler (some e) "pinned" w nowMs u).cacheStatus = "stale") := by
  constructor
  · intro hage hvalid
    rw [handler_pinned_some, hl]
    simp only [Option.getD_some]
    rw [if_neg, if_pos ⟨le_of_eq hage, hvalid⟩]
    rintro ⟨-, hbad⟩
    rw [hvalid] at hbad
    exact absurd hbad (by simp)
  · intro hgt
    have hres := handler_stale e w nowMs lastMs u hl (not_le.mpr hgt)
    rw [hres]
    exact ⟨(fetchPhase_write "stale" w u).2.2.2.1, (fetchPhase_write "stale" w u).2.2.2.2⟩

/-- Witness for C9: an entry refreshed at epoch 0, window 180 days, read
exactly 180 days later, is served as `hit` without an upstream call. -/
theorem c9_witness :
    handler
        (some ⟨⟨.num (.finite 10), .num (.finite 20), .num (.finite 30), .null⟩,
          ⟨some 0, none⟩⟩)
        "pinned" 180 (180 * 86400000) .fetchFailed
      = ⟨200, "hit",
          some ⟨.num (.finite 10), .num (.finite 20), .num (.finite 30), .null⟩,
          false, none⟩ :=
  (c9_window_boundary _ 180 (180 * 86400000) 0 .fetchFailed rfl).1
    (by simp only [Option.getD_none]; norm_num) (by decide)

/-- C3 (counterexample): a valid cached entry aged 200 days against a
180-day window (STALE) whose refresh attempt fails is answered with HTTP
500 and no payload — the stale entry is *not* served, and the response is
not classified `degraded`. -/
theorem c3_counterexample :
    handler
        (some ⟨⟨.num (.finite 10), .num (.finite 20), .num (.finite 30), .num (.finite 40)⟩,
          ⟨some 0, none⟩⟩)
        "pinned" 180 (200 * 86400000) .fetchFailed
      = ⟨500, "stale", none, true, none⟩ := by
  have hres := handler_stale
    ⟨⟨.num (.finite 10), .num (.finite 20), .num (.finite 30), .num (.finite 40)⟩,
      ⟨some 0, none⟩⟩
    180 (200 * 86400000) 0 .fetchFailed rfl
    (by simp only [Option.getD_none]; norm_num)
  rw [hres]
  rfl

/-- C3 (amended): when a cached entry is outside the window (STALE) and
the refresh fails, the handler surfaces an error instead of serving the
stale entry: HTTP 500 for a fetch failure or unparseable body, HTTP 502
for an invalid fresh payload; nothing is served and nothing is written. -/
theorem c3_stale_refresh_error (e : CacheEntry) (w nowMs lastMs : ℚ) (u : UpstreamResult)
    (hl : e.meta.last_refreshed_at = some lastMs)
    (hstale : e.meta.consistency_window_days.getD w < (nowMs - lastMs) / 86400000) :
    ((u = .fetchFailed ∨ u = .invalidJson) →
      handler (some e) "pinned" w nowMs u = ⟨500, "stale", none, true, none⟩) ∧
    (∀ p, u = .ok p → isValidKpiPayload p = false →
      handler (some e) "pinned" w nowMs u = ⟨502, "stale", none, true, none⟩) := by
  have hres := handler_stale e w nowMs lastMs u hl (not_le.mpr hstale)
  constructor
  · intro hu
    rw [hres]
    exact (fetchPhase_write "stale" w u).1 hu
  · intro p hu hv
    rw [hres]
    exact (fetchPhase_write "stale" w u).2.1 p hu hv

/-- Witness for C3's amended theorem: the concrete stale entry of the
counterexample with an unparseable upstream body. -/
theorem c3_witness :
    handler
        (some ⟨⟨.num (.finite 10), .num (.finite 20), .num (.finite 30), .num (.finite 40)⟩,
          ⟨some 0, none⟩⟩)
        "pinned" 180 (200 * 86400000) .invalidJson
      = ⟨500, "stale", none, true, none⟩ :=
  (c3_stale_refresh_error _ 180 (200 * 86400000) 0 .invalidJson rfl
    (by simp only [Option.getD_none]; norm_num)).1 (Or.inr rfl)

/-- C6 (counterexample): a within-window entry with an invalid payload is
served immediately as `degraded` with *no* upstream attempt, even though
the upstream call would have succeeded with a valid payload — refuting
"it never serves the invalid entry without having attempted a refresh". -/
theorem c6_counterexample :
    handler (some ⟨⟨.null, .null, .null, .null⟩, ⟨some 0, none⟩⟩) "pinned" 180 0
        (.ok ⟨.num (.finite 10), .num (.finite 20), .num (.finite 30), .num (.finite 40)⟩)
      = ⟨200, "degraded", some ⟨.null, .null, .null, .null⟩, false, none⟩ ∧
    isValidKpiPayload ⟨.num (.finite 10), .num (.finite 20), .num (.finite 30), .num (.finite 40)⟩
      = true := by
  refine ⟨?_, by decide⟩
  rw [handler_pinned_some]
  simp only [Option.getD_some, Option.getD_none]
  rw [if_pos ⟨by norm_num, by decide⟩]

/-- C6 (amended): whenever a cached entry is within the window but its
payload fails the validity check, the pinned-mode handler serves the
invalid cached payload immediately as `DEGRADED`, without attempting any
upstream refresh (regardless of whether a refresh would have
succeeded). -/
theorem c6_invalid_served_degraded (e : CacheEntry) (w nowMs lastMs : ℚ)
    (u : UpstreamResult)
    (hl : e.meta.last_refreshed_at = some lastMs)
    (hwin : (nowMs - lastMs) / 86400000 ≤ e.meta.consistency_window_days.getD w)
    (hinv : isValidKpiPayload e.payload = false) :
    handler (some e) "pinned" w nowMs u = ⟨200, "degraded", some e.payload, false, none⟩ := by
  rw [handler_pinned_some, hl]
  simp only [Option.getD_some]
  rw [if_pos ⟨hwin, hinv⟩]

/-- Witness for C6's amended theorem: the concrete invalid within-window
entry of the counterexample, with a failing upstream this time. -/
theorem c6_witness :
    handler (some ⟨⟨.null, .null, .null, .null⟩, ⟨some 0, none⟩⟩) "pinned" 180 0 .fetchFailed
      = ⟨200, "degraded", some ⟨.null, .null, .null, .null⟩, false, none⟩ :=
  c6_invalid_served_degraded _ 180 0 0 .fetchFailed rfl
    (by simp only [Option.getD_none]; norm_num) (by decide)

/-- C7 (confirmed): a cache write happens only after an upstream call that
returned a parseable payload passing the validity check — never on a
fetch failure, an unparseable body, or an invalid payload, and never on
the cached-serve paths — and every write stores the normalised payload
with TTL `windowDays * 86400` seconds. -/
theorem c7_cache_write (cached : Option CacheEntry) (mode : String) (w nowMs : ℚ)
    (u : UpstreamResult) :
    ((u = .fetchFailed ∨ u = .invalidJson) →
      (handler cached mode w nowMs u).cacheWrite = none) ∧
    (∀ p, u = .ok p → isValidKpiPayload p = false →
      (handler cached mode w nowMs u).cacheWrite = none) ∧
    (∀ pr, (handler cached mode w nowMs u).cacheWrite = some pr →
      ∃ p, u = .ok p ∧ isValidKpiPayload p = true ∧
        pr = (normaliseKpiPayload p, w * 86400)) := by
  have hch : (handler cached mode w nowMs u).cacheWrite = none ∨
      ∃ s, handler cached mode w nowMs u = fetchPhase s w u := by
    match cached with
    | none => exact Or.inr ⟨"miss", rfl⟩
    | some e =>
      by_cases hm : mode = "pinned"
      · subst hm
        rw [handler_pinned_some]
        split_ifs
        · exact Or.inl rfl
        · exact Or.inl rfl
        · exact Or.inr ⟨"stale", rfl⟩
      · exact Or.inr ⟨"miss", by simp [handler, hm]⟩
  rcases hch with hnone | ⟨s, hs⟩
  · refine ⟨fun _ => hnone, fun _ _ _ => hnone, fun pr hpr => ?_⟩
    rw [hnone] at hpr
    exact absurd hpr (by simp)
  · rw [hs]
    refine ⟨fun hu => ?_, fun p hu hv => ?_, (fetchPhase_write s w u).2.2.1⟩
    · rw [(fetchPhase_write s w u).1 hu]
    · rw [(fetchPhase_write s w u).2.1 p hu hv]

/-- Witness for C7: a failed upstream call writes nothing. -/
theorem c7_witness :
    (handler none "pinned" 180 0 .fetchFailed).cacheWrite = none :=
  (c7_cache_write none "pinned" 180 0 .fetchFailed).1 (Or.inl rfl)

/-! ## Claim about the Stability-Key Builder (C2) -/

/-- C2 (confirmed): identity descriptors that canonicalise to the same
part list produce an identical SK digest; an omitted `market`/`segment`/
`timeframe` is indistinguishable from the explicit defaults `"global"`/
`"b2c"`/`"current"`; and the two scenario requests
`{brand_url: "https://WWW.Example.com/", seed: 2}` and
`{brand_url: "example.com", seed: 2}` (all other fields omitted) yield the
same SK, the canonicaliser having stripped case, scheme, trailing path and
the `www.` label. -/
theorem c2_sk_canonical_invariance :
    (∀ a b : SKArgs, skParts a = skParts b → buildSK a = buildSK b) ∧
    (∀ url bn sec seg tf ind sd,
      buildSK ⟨url, bn, some "global", sec, seg, tf, ind, sd⟩ =
        buildSK ⟨url, bn, none, sec, seg, tf, ind, sd⟩) ∧
    (∀ url bn mk sec tf ind sd,
      buildSK ⟨url, bn, mk, sec, some "b2c", tf, ind, sd⟩ =
        buildSK ⟨url, bn, mk, sec, none, tf, ind, sd⟩) ∧
    (∀ url bn mk sec seg ind sd,
      buildSK ⟨url, bn, mk, sec, seg, some "current", ind, sd⟩ =
        buildSK ⟨url, bn, mk, sec, seg, none, ind, sd⟩) ∧
    canonicalDomain "https://WWW.Example.com/" = "example.com" ∧
    buildSK ⟨"https://WWW.Example.com/", none, none, none, none, none, none, some 2⟩ =
      buildSK ⟨"example.com", none, none, none, none, none, none, some 2⟩ := by
  have hsk : ∀ a b : SKArgs, skParts a = skParts b → buildSK a = buildSK b := by
    intro a b h
    unfold buildSK
    rw [h]
  refine ⟨hsk, ?_, ?_, ?_, by decide, hsk _ _ (by decide)⟩
  · intro url bn sec seg tf ind sd
    apply hsk
    simp only [skParts]
    rw [show jsToLower (jsOr (some "global") "Global")
      = jsToLower (jsOr none "Global") from by decide]
  · intro url bn mk sec tf ind sd
    apply hsk
    simp only [skParts]
    rw [show jsToLower (jsOr (some "b2c") "B2C")
      = jsToLower (jsOr none "B2C") from by decide]
  · intro url bn mk sec seg ind sd
    apply hsk
    simp only [skParts]
    rw [show jsToLower (jsOr (some "current") "Current")
      = jsToLower (jsOr none "Current") from by decide]

/-- Witness for C2: a variant with surrounding whitespace and a
path/query/fragment suffix also collapses to the same SK. -/
theorem c2_witness :
    buildSK ⟨"  https://WWW.Example.com/path?q=1#frag  ",
        none, none, none, none, none, none, some 2⟩ =
      buildSK ⟨"example.com", none, none, none, none, none, none, some 2⟩ :=
  c2_sk_canonical_invariance.1 _ _ (by decide)

end Ubiqitum
